import Mathlib

/-!
Verification of the freestyle-bot decision module (`src/bot.py`) and its
sequenced control-execution engine.

Shallow embedding conventions:
* Continuous quantities (positions, speeds, times, control axes, boost) are
  rationals, matching the exact threshold comparisons of the source.
* Vector norms (`Vec3.length`) are computed by the external `util/vec.py`
  collaborator, which is not part of the sources; the per-tick snapshot
  therefore carries `distance_to_ball` and `car_speed` as inputs, exactly as
  `check_aerial_conditions`, `find_aerial_target` and `ground_game_logic`
  receive them as already-computed scalars.
* `random.choice` over a non-empty candidate list is modelled by an arbitrary
  index supplied per call (`rand`), reduced modulo the list length.
* The quick-chat and rendering side channels carry no decision-relevant state
  and are omitted.
-/

attribute [local semireducible] Rat.add Rat.sub Rat.mul Rat.inv Rat.ofScientific

namespace Freestyle

/-- A 3-component vector; mirrors the fields of the external `Vec3` record. -/
structure Vec3 where
  x : ℚ
  y : ℚ
  z : ℚ
deriving DecidableEq

/-- The actuation record `SimpleControllerState`: unset fields default to
neutral/off, as in the host framework. -/
structure SimpleControllerState where
  throttle : ℚ := 0
  steer : ℚ := 0
  pitch : ℚ := 0
  yaw : ℚ := 0
  roll : ℚ := 0
  jump : Bool := false
  boost : Bool := false
  handbrake : Bool := false
deriving DecidableEq

/-- A predicted ball-state sample: a timestamp plus the predicted location
(`slice.game_seconds`, `slice.physics.location`). -/
structure Slice where
  game_seconds : ℚ
  location : Vec3
deriving DecidableEq

/-- Modelled from the spec: `find_slice_at_time` of
`util/ball_prediction_analysis.py` is not under `src/`.  Spec section 4.1: a
search over the time-ascending slice list for "the slice whose timestamp is
the closest predicted sample at or after the target time"; empty input or a
target time beyond the last slice yields the absence signal `none`. -/
def find_slice_at_time (slices : List Slice) (game_time : ℚ) : Option Slice :=
  slices.find? (fun s => decide (game_time ≤ s.game_seconds))

/-- `check_aerial_conditions` (`src/bot.py` lines 94-104): the conjunction of
the six aerial-eligibility conditions, in source order. -/
def check_aerial_conditions (ball_height distance_to_ball boost
    time_since_aerial aerial_cooldown : ℚ)
    (is_super_sonic has_wheel_contact : Bool) : Bool :=
  decide (ball_height > 350) &&
  (decide (400 < distance_to_ball) && decide (distance_to_ball < 2200)) &&
  decide (boost > 35) &&
  decide (time_since_aerial > aerial_cooldown) &&
  !is_super_sonic &&
  has_wheel_contact

/-- The lookahead offset of `find_aerial_target` (`src/bot.py` lines 109-110):
`lookahead = 0.5 + distance / 1500.0`, then capped at `2.5`. -/
def aerial_lookahead (distance : ℚ) : ℚ :=
  min (0.5 + distance / 1500) 2.5

/-- `find_aerial_target` (`src/bot.py` lines 106-120): sample the prediction
at `current_time + lookahead`; keep the sampled location only when its height
exceeds 400. -/
def find_aerial_target (ball_prediction : List Slice)
    (current_time distance : ℚ) : Option Vec3 :=
  match find_slice_at_time ball_prediction (current_time + aerial_lookahead distance) with
  | some target_slice =>
      if target_slice.location.z > 400 then some target_slice.location else none
  | none => none

/-- C3: aerial eligibility is a pure conjunction of the six conditions —
`check_aerial_conditions` returns `true` exactly when all six hold, hence any
state with exactly one condition false (and the rest true) yields `false`. -/
theorem check_aerial_conditions_iff_six_conditions
    (ball_height distance_to_ball boost time_since_aerial aerial_cooldown : ℚ)
    (is_super_sonic has_wheel_contact : Bool) :
    check_aerial_conditions ball_height distance_to_ball boost
      time_since_aerial aerial_cooldown is_super_sonic has_wheel_contact = true ↔
      (350 < ball_height ∧ (400 < distance_to_ball ∧ distance_to_ball < 2200) ∧
        35 < boost ∧ aerial_cooldown < time_since_aerial ∧
        is_super_sonic = false ∧ has_wheel_contact = true) := by
  simp [check_aerial_conditions, gt_iff_lt, and_assoc, Bool.not_eq_true']

/-- C7: the boost condition is strict at 35 — with the other five aerial
conditions satisfied, boost 38 makes `check_aerial_conditions` true while
boost exactly 35 makes it false. -/
theorem check_aerial_conditions_boost_threshold
    (ball_height distance_to_ball time_since_aerial aerial_cooldown : ℚ)
    (is_super_sonic has_wheel_contact : Bool)
    (h1 : 350 < ball_height) (h2 : 400 < distance_to_ball)
    (h3 : distance_to_ball < 2200) (h4 : aerial_cooldown < time_since_aerial)
    (h5 : is_super_sonic = false) (h6 : has_wheel_contact = true) :
    check_aerial_conditions ball_height distance_to_ball 38
      time_since_aerial aerial_cooldown is_super_sonic has_wheel_contact = true ∧
    check_aerial_conditions ball_height distance_to_ball 35
      time_since_aerial aerial_cooldown is_super_sonic has_wheel_contact = false := by
  constructor
  · simp [check_aerial_conditions, h1, h2, h3, h4, h5, h6]
    norm_num
  · simp [check_aerial_conditions]

/-- C7 witness: the spec's scenario values (ball height 500, distance 1000,
5 seconds since the last aerial, 3-second cooldown, grounded, not
supersonic). -/
theorem check_aerial_conditions_boost_threshold_witness :
    check_aerial_conditions 500 1000 38 5 3 false true = true ∧
    check_aerial_conditions 500 1000 35 5 3 false true = false :=
  check_aerial_conditions_boost_threshold 500 1000 5 3 false true
    (by decide) (by decide) (by decide) (by decide) rfl rfl

/-- C4: the lookahead offset equals `min (0.5 + distance / 1500) 2.5` for
every distance, evaluates to 7/6 at distance 1000, and never exceeds the
2.5-second cap. -/
theorem aerial_lookahead_spec :
    (∀ distance : ℚ, aerial_lookahead distance = min (0.5 + distance / 1500) 2.5) ∧
    aerial_lookahead 1000 = 7 / 6 ∧
    (∀ distance : ℚ, aerial_lookahead distance ≤ 2.5) := by
  refine ⟨fun _ => rfl, ?_, fun _ => min_le_right _ _⟩
  unfold aerial_lookahead
  norm_num

/-- A sequence step: a non-negative duration in seconds paired with a control
output (`ControlStep(duration=..., controls=...)`). -/
structure ControlStep where
  duration : ℚ
  controls : SimpleControllerState
deriving DecidableEq

/-- Modelled from the spec: the `Sequence` class of `util/sequence.py` is not
under `src/`.  Spec section 3/4.2: an ordered list of steps plus mutable
progress state — the sequence's start reference on the caller's clock and a
permanent `done` flag. -/
structure Sequence where
  steps : List ControlStep
  start_time : ℚ
  done : Bool
deriving DecidableEq

/-- Total planned duration of a step list: the sum of all step durations. -/
def total_duration (steps : List ControlStep) : ℚ :=
  (steps.map (·.duration)).sum

/-- Modelled from the spec (spec section 4.2): the active step is the smallest
index whose cumulative duration exceeds the elapsed time; equivalently, walk
the steps subtracting each duration until the elapsed remainder falls inside
a step.  Returns that step's control output, or `none` when the elapsed time
exceeds the full plan. -/
def select_step : List ControlStep → ℚ → Option SimpleControllerState
  | [], _ => none
  | step :: rest, elapsed =>
      if elapsed < step.duration then some step.controls
      else select_step rest (elapsed - step.duration)

/-- Modelled from the spec: `Sequence.tick` of `util/sequence.py` is not under
`src/`.  Spec section 4.2: recompute elapsed time from the caller-supplied
clock; return the active step's control output, or transition permanently to
`Done` and return the absence signal once elapsed time exceeds the plan.  A
sequence already `done` stays inert. -/
def Sequence.tick (s : Sequence) (game_time : ℚ) :
    Option SimpleControllerState × Sequence :=
  if s.done then (none, s)
  else
    match select_step s.steps (game_time - s.start_time) with
    | some controls => (some controls, s)
    | none => (none, { s with done := true })

/-- Starting a sequence the instant a behavior is chosen: zero elapsed time at
the creation tick, advanced once immediately (`self.active_sequence =
Sequence([...]); return self.active_sequence.tick(packet)`). -/
def start_sequence (steps : List ControlStep) (game_time : ℚ) :
    Option SimpleControllerState × Sequence :=
  (Sequence.mk steps game_time false).tick game_time

/-- A done sequence is inert: `tick` yields the absence signal and leaves the
sequence unchanged. -/
theorem Sequence.tick_of_done (s : Sequence) (game_time : ℚ) (h : s.done = true) :
    s.tick game_time = (none, s) := by
  simp [Sequence.tick, h]

/-- With non-negative step durations, an elapsed time at least the total
planned duration selects no step. -/
theorem select_step_eq_none_of_total_le (steps : List ControlStep) (elapsed : ℚ)
    (hnn : ∀ st ∈ steps, 0 ≤ st.duration)
    (hD : total_duration steps ≤ elapsed) :
    select_step steps elapsed = none := by
  induction steps generalizing elapsed with
  | nil => rfl
  | cons step rest ih =>
      have hrest : ∀ st ∈ rest, 0 ≤ st.duration := fun st hst => hnn st (by simp [hst])
      have hsum : 0 ≤ total_duration rest := by
        have : ∀ q ∈ rest.map (·.duration), 0 ≤ q := by
          intro q hq
          rcases List.mem_map.mp hq with ⟨st, hst, rfl⟩
          exact hrest st hst
        exact List.sum_nonneg this
      have htot : step.duration + total_duration rest ≤ elapsed := by
        simpa [total_duration] using hD
      have hstep : step.duration ≤ elapsed := by linarith
      have : select_step rest (elapsed - step.duration) = none :=
        ih (elapsed - step.duration) hrest (by linarith)
      simp [select_step, not_lt.mpr hstep, this]

/-- C2: Done is a permanent terminal state.  For a sequence with non-negative
step durations (the data-model invariant) whose elapsed time has reached the
total planned duration D, `tick` yields the absence signal and marks the
sequence done, and every subsequent `tick` — at any clock value — again
yields the absence signal and leaves the sequence unchanged, so a finished
sequence never resumes producing control outputs. -/
theorem sequence_done_is_permanent (s : Sequence) (game_time : ℚ)
    (hnn : ∀ st ∈ s.steps, 0 ≤ st.duration)
    (hD : total_duration s.steps ≤ game_time - s.start_time) :
    (s.tick game_time).1 = none ∧ (s.tick game_time).2.done = true ∧
    ∀ later_time : ℚ,
      (s.tick game_time).2.tick later_time = (none, (s.tick game_time).2) := by
  have hsel := select_step_eq_none_of_total_le s.steps (game_time - s.start_time) hnn hD
  by_cases hdone : s.done
  · refine ⟨?_, ?_, ?_⟩ <;> simp [Sequence.tick, hdone]
  · have htick : s.tick game_time = (none, { s with done := true }) := by
      simp [Sequence.tick, hdone, hsel]
    refine ⟨?_, ?_, ?_⟩
    · simp [htick]
    · simp [htick]
    · intro later_time
      rw [htick]
      exact Sequence.tick_of_done _ later_time rfl

/-- C2 witness: the spec's example sequence with steps of 0.1 s and 0.2 s,
started at time 0 and ticked at time 2 (past its total duration 0.3 s). -/
theorem sequence_done_is_permanent_witness :
    ((Sequence.mk
        [ControlStep.mk 0.1 { jump := true },
         ControlStep.mk 0.2 { boost := true }]
        0 false).tick 2).1 = none ∧
    ((Sequence.mk
        [ControlStep.mk 0.1 { jump := true },
         ControlStep.mk 0.2 { boost := true }]
        0 false).tick 2).2.done = true ∧
    ∀ later_time : ℚ,
      ((Sequence.mk
          [ControlStep.mk 0.1 { jump := true },
           ControlStep.mk 0.2 { boost := true }]
          0 false).tick 2).2.tick later_time =
        (none,
          ((Sequence.mk
              [ControlStep.mk 0.1 { jump := true },
               ControlStep.mk 0.2 { boost := true }]
              0 false).tick 2).2) :=
  sequence_done_is_permanent
    (Sequence.mk
      [ControlStep.mk 0.1 { jump := true },
       ControlStep.mk 0.2 { boost := true }]
      0 false)
    2 (by decide) (by decide)

/-- In a time-ascending slice list, every element's timestamp is bounded by
the last slice's timestamp. -/
theorem timestamp_le_getLast (slices : List Slice)
    (hsorted : slices.Pairwise (fun a b => a.game_seconds ≤ b.game_seconds)) :
    ∀ last, slices.getLast? = some last →
      ∀ x ∈ slices, x.game_seconds ≤ last.game_seconds := by
  induction slices with
  | nil => intro last hlast; simp at hlast
  | cons a rest ih =>
      intro last hlast x hx
      rcases List.pairwise_cons.mp hsorted with ⟨ha, hrest⟩
      cases rest with
      | nil =>
          simp at hlast
          rcases List.mem_singleton.mp hx with rfl
          simp [hlast]
      | cons b rest2 =>
          rw [List.getLast?_cons_cons] at hlast
          rcases List.mem_cons.mp hx with rfl | hx2
          · rcases List.mem_getLast?_eq_getLast (Option.mem_def.mpr hlast) with ⟨hne, rfl⟩
            exact ha _ (List.getLast_mem hne)
          · exact ih hrest last hlast x hx2

/-- When `find_slice_at_time` returns a slice from a time-ascending list, the
slice is drawn from the list, its timestamp is at or after the target time,
and it is the earliest such sample. -/
theorem find_slice_at_time_some_spec (slices : List Slice) (game_time : ℚ)
    (hsorted : slices.Pairwise (fun a b => a.game_seconds ≤ b.game_seconds)) :
    ∀ s, find_slice_at_time slices game_time = some s →
      s ∈ slices ∧ game_time ≤ s.game_seconds ∧
        ∀ s' ∈ slices, game_time ≤ s'.game_seconds →
          s.game_seconds ≤ s'.game_seconds := by
  induction slices with
  | nil => intro s hs; simp [find_slice_at_time] at hs
  | cons a rest ih =>
      intro s hs
      rcases List.pairwise_cons.mp hsorted with ⟨ha, hrest⟩
      by_cases hp : game_time ≤ a.game_seconds
      · have : find_slice_at_time (a :: rest) game_time = some a := by
          simp [find_slice_at_time, List.find?_cons, hp]
        rw [this] at hs
        rcases Option.some_inj.mp hs with rfl
        refine ⟨List.mem_cons_self a rest, hp, ?_⟩
        intro s' hs' _
        rcases List.mem_cons.mp hs' with rfl | h2
        · exact le_refl _
        · exact ha s' h2
      · have hstep : find_slice_at_time (a :: rest) game_time =
            find_slice_at_time rest game_time := by
          simp [find_slice_at_time, List.find?_cons, hp]
        rw [hstep] at hs
        rcases ih hrest s hs with ⟨hmem, hts, hmin⟩
        refine ⟨List.mem_cons_of_mem a hmem, hts, ?_⟩
        intro s' hs' hts'
        rcases List.mem_cons.mp hs' with rfl | h2
        · exact absurd hts' hp
        · exact hmin s' h2 hts'

/-- C6: over a time-ascending prediction, `find_slice_at_time` (1) on success
returns a slice drawn from the supplied list whose timestamp is at or after
the target time and is the closest such sample, (2) returns nothing on an
empty list, (3) returns nothing when the target time exceeds the last slice's
timestamp, and (4) returns a slice whenever the target time is within the
covered horizon. -/
theorem find_slice_at_time_spec (slices : List Slice) (game_time : ℚ)
    (hsorted : slices.Pairwise (fun a b => a.game_seconds ≤ b.game_seconds)) :
    (∀ s, find_slice_at_time slices game_time = some s →
        s ∈ slices ∧ game_time ≤ s.game_seconds ∧
          ∀ s' ∈ slices, game_time ≤ s'.game_seconds →
            s.game_seconds ≤ s'.game_seconds) ∧
    (slices = [] → find_slice_at_time slices game_time = none) ∧
    (∀ last, slices.getLast? = some last → last.game_seconds < game_time →
        find_slice_at_time slices game_time = none) ∧
    (∀ last, slices.getLast? = some last → game_time ≤ last.game_seconds →
        ∃ s, find_slice_at_time slices game_time = some s) := by
  refine ⟨find_slice_at_time_some_spec slices game_time hsorted, ?_, ?_, ?_⟩
  · rintro rfl; rfl
  · intro last hlast hpast
    apply List.find?_eq_none.mpr
    intro x hx
    simp only [decide_eq_true_eq]
    have := timestamp_le_getLast slices hsorted last hlast x hx
    intro hcontra
    exact absurd (le_trans hcontra this) (not_le.mpr hpast)
  · intro last hlast hin
    have hlastmem : last ∈ slices := by
      rcases List.mem_getLast?_eq_getLast (Option.mem_def.mpr hlast) with ⟨hne, rfl⟩
      exact List.getLast_mem hne
    have : (slices.find? (fun s => decide (game_time ≤ s.game_seconds))).isSome :=
      List.find?_isSome.mpr ⟨last, hlastmem, by simpa using hin⟩
    exact Option.isSome_iff_exists.mp this

/-- C6 witness: a three-slice ascending prediction sampled at time 3/2 —
the returned slice is the 2-second sample. -/
theorem find_slice_at_time_spec_witness :
    (∀ s, find_slice_at_time
        [Slice.mk 1 (Vec3.mk 0 0 100), Slice.mk 2 (Vec3.mk 0 0 500),
         Slice.mk 3 (Vec3.mk 0 0 800)] (3/2) = some s →
      s ∈ [Slice.mk 1 (Vec3.mk 0 0 100), Slice.mk 2 (Vec3.mk 0 0 500),
           Slice.mk 3 (Vec3.mk 0 0 800)] ∧ (3/2 : ℚ) ≤ s.game_seconds ∧
        ∀ s' ∈ [Slice.mk 1 (Vec3.mk 0 0 100), Slice.mk 2 (Vec3.mk 0 0 500),
                Slice.mk 3 (Vec3.mk 0 0 800)], (3/2 : ℚ) ≤ s'.game_seconds →
          s.game_seconds ≤ s'.game_seconds) ∧
    ([Slice.mk 1 (Vec3.mk 0 0 100), Slice.mk 2 (Vec3.mk 0 0 500),
      Slice.mk 3 (Vec3.mk 0 0 800)] = ([] : List Slice) →
      find_slice_at_time
        [Slice.mk 1 (Vec3.mk 0 0 100), Slice.mk 2 (Vec3.mk 0 0 500),
         Slice.mk 3 (Vec3.mk 0 0 800)] (3/2) = none) ∧
    (∀ last, [Slice.mk 1 (Vec3.mk 0 0 100), Slice.mk 2 (Vec3.mk 0 0 500),
        Slice.mk 3 (Vec3.mk 0 0 800)].getLast? = some last →
      last.game_seconds < 3/2 →
        find_slice_at_time
          [Slice.mk 1 (Vec3.mk 0 0 100), Slice.mk 2 (Vec3.mk 0 0 500),
           Slice.mk 3 (Vec3.mk 0 0 800)] (3/2) = none) ∧
    (∀ last, [Slice.mk 1 (Vec3.mk 0 0 100), Slice.mk 2 (Vec3.mk 0 0 500),
        Slice.mk 3 (Vec3.mk 0 0 800)].getLast? = some last →
      (3/2 : ℚ) ≤ last.game_seconds →
        ∃ s, find_slice_at_time
          [Slice.mk 1 (Vec3.mk 0 0 100), Slice.mk 2 (Vec3.mk 0 0 500),
           Slice.mk 3 (Vec3.mk 0 0 800)] (3/2) = some s) :=
  find_slice_at_time_spec
    [Slice.mk 1 (Vec3.mk 0 0 100), Slice.mk 2 (Vec3.mk 0 0 500),
     Slice.mk 3 (Vec3.mk 0 0 800)] (3/2) (by decide)

/-- The tier-union trick list of `choose_freestyle_aerial` (`src/bot.py` lines
130-141): high-boost tricks (boost above 60), then medium-boost tricks (boost
above 40), then the always-available low-boost tricks, in source order. -/
def aerial_tricks (boost_amount : ℚ) : List String :=
  (if boost_amount > 60 then
    ["tornado", "ceiling_shuffle", "kuxir_twist", "flip_reset", "psycho"]
  else []) ++
  (if boost_amount > 40 then ["air_roll_shot", "musty_flick", "flip_reset"]
  else []) ++
  ["basic_aerial", "spinning_aerial"]

/-- The candidate list after the no-immediate-repeat step (`src/bot.py` lines
143-145): `if self.last_trick_type in tricks: tricks.remove(self.last_trick_type)`
— `List.erase` removes the first occurrence exactly when present. -/
def aerial_candidates (boost_amount : ℚ) (last_trick_type : Option String) :
    List String :=
  match last_trick_type with
  | some last =>
      if last ∈ aerial_tricks boost_amount then (aerial_tricks boost_amount).erase last
      else aerial_tricks boost_amount
  | none => aerial_tricks boost_amount

/-- `random.choice(tricks)` (`src/bot.py` line 147), modelled as indexing by
an externally supplied random number reduced modulo the list length. -/
def chosen_trick (candidates : List String) (rand : ℕ) : String :=
  candidates.getD (rand % candidates.length) ("basic_aerial")

/-- C9: for every boost amount and every previous trick, the candidate list
is non-empty after the no-repeat removal — the baseline tier contributes two
distinct tricks and at most one occurrence is removed — so the uniform random
selection always has a candidate to return. -/
theorem aerial_candidates_nonempty (boost_amount : ℚ)
    (last_trick_type : Option String) :
    0 < (aerial_candidates boost_amount last_trick_type).length := by
  have hlen : 2 ≤ (aerial_tricks boost_amount).length := by
    unfold aerial_tricks
    by_cases h60 : boost_amount > 60 <;> by_cases h40 : boost_amount > 40 <;>
      simp [h60, h40]
  cases last_trick_type with
  | none =>
      simp only [aerial_candidates]
      omega
  | some last =>
      simp only [aerial_candidates]
      by_cases hmem : last ∈ aerial_tricks boost_amount
      · have := List.length_erase_of_mem hmem
        simp only [hmem, if_true, this]
        omega
      · simp only [hmem, if_false]
        omega

/-- C1 (failing input): with boost 70 the trick `flip_reset` sits in both the
high-boost and medium-boost tiers, so after the previous trick `flip_reset`
is removed once, the candidate pool (size 9, greater than 1) still contains
`flip_reset`, and the uniform choice at index 6 selects it again — two
consecutive selections can be equal, contrary to the no-repeat rule the
removal is meant to enforce. -/
theorem no_repeat_rule_violated_at_flip_reset :
    1 < (aerial_candidates 70 (some ("flip_reset"))).length ∧
    chosen_trick (aerial_candidates 70 (some ("flip_reset"))) 6 = "flip_reset" := by
  decide

/-- `tornado_aerial` step template (`src/bot.py` lines 175-190). -/
def tornado_steps : List ControlStep :=
  [ControlStep.mk 0.1 { jump := true, boost := true },
   ControlStep.mk 0.05 { jump := false, boost := true },
   ControlStep.mk 0.1 { jump := true, boost := true, pitch := -0.4 },
   ControlStep.mk 0.15 { boost := true, pitch := -0.3, roll := 1, yaw := 1 },
   ControlStep.mk 0.15 { boost := true, pitch := -0.2, roll := 1, yaw := -1 },
   ControlStep.mk 0.15 { boost := true, pitch := -0.3, roll := 1, yaw := 1 },
   ControlStep.mk 0.15 { boost := true, pitch := -0.2, roll := 1, yaw := -1 },
   ControlStep.mk 0.2 { boost := true, pitch := -0.9, roll := 0.5 },
   ControlStep.mk 0.4 { pitch := 1, roll := 0 }]

/-- `kuxir_twist` step template (`src/bot.py` lines 198-212). -/
def kuxir_twist_steps : List ControlStep :=
  [ControlStep.mk 0.1 { jump := true, boost := true },
   ControlStep.mk 0.05 { jump := false, boost := true },
   ControlStep.mk 0.1 { jump := true, boost := true, pitch := 1 },
   ControlStep.mk 0.2 { boost := true, pitch := 0.5, roll := -1, yaw := 0.8 },
   ControlStep.mk 0.2 { boost := true, pitch := 0.3, roll := -1, yaw := -0.8 },
   ControlStep.mk 0.2 { boost := true, pitch := 0.5, roll := -1, yaw := 0.8 },
   ControlStep.mk 0.2 { boost := true, pitch := -0.5, roll := 0.5 },
   ControlStep.mk 0.4 { pitch := 1, roll := 0 }]

/-- `air_roll_shot` step template (`src/bot.py` lines 220-234). -/
def air_roll_shot_steps : List ControlStep :=
  [ControlStep.mk 0.1 { jump := true, boost := true },
   ControlStep.mk 0.05 { jump := false, boost := true },
   ControlStep.mk 0.1 { jump := true, boost := true, pitch := -0.5 },
   ControlStep.mk 0.25 { boost := true, pitch := -0.4, roll := 1 },
   ControlStep.mk 0.25 { boost := true, pitch := -0.4, roll := 1 },
   ControlStep.mk 0.25 { boost := true, pitch := -0.5, roll := 1 },
   ControlStep.mk 0.15 { boost := true, pitch := -1, roll := 0 },
   ControlStep.mk 0.4 { pitch := 1 }]

/-- `ceiling_shuffle` step template (`src/bot.py` lines 242-257). -/
def ceiling_shuffle_steps : List ControlStep :=
  [ControlStep.mk 0.1 { jump := true, boost := true },
   ControlStep.mk 0.05 { jump := false, boost := true },
   ControlStep.mk 0.15 { jump := true, boost := true, pitch := 0.5, roll := -1 },
   ControlStep.mk 0.15 { boost := true, pitch := -0.2, roll := 1, yaw := 0.5 },
   ControlStep.mk 0.15 { boost := true, pitch := -0.2, roll := -1, yaw := -0.5 },
   ControlStep.mk 0.15 { boost := true, pitch := -0.3, roll := 1, yaw := 0.5 },
   ControlStep.mk 0.15 { boost := true, pitch := -0.3, roll := -1, yaw := -0.5 },
   ControlStep.mk 0.2 { boost := true, pitch := -0.8 },
   ControlStep.mk 0.4 { pitch := 1 }]

/-- `spinning_aerial` step template (`src/bot.py` lines 265-274). -/
def spinning_aerial_steps : List ControlStep :=
  [ControlStep.mk 0.1 { jump := true, boost := true },
   ControlStep.mk 0.05 { jump := false, boost := true },
   ControlStep.mk 0.1 { jump := true, boost := true, pitch := -0.4 },
   ControlStep.mk 0.3 { boost := true, pitch := -0.3, roll := -1 },
   ControlStep.mk 0.3 { boost := true, pitch := -0.4, roll := -1 },
   ControlStep.mk 0.2 { boost := true, pitch := -0.8 },
   ControlStep.mk 0.4 { pitch := 1 }]

/-- `basic_freestyle_aerial` step template (`src/bot.py` lines 282-290). -/
def basic_freestyle_aerial_steps : List ControlStep :=
  [ControlStep.mk 0.1 { jump := true, boost := true },
   ControlStep.mk 0.05 { jump := false, boost := true },
   ControlStep.mk 0.1 { jump := true, boost := true, pitch := -0.5 },
   ControlStep.mk 0.2 { boost := true, pitch := -0.4, roll := -1, yaw := 0.3 },
   ControlStep.mk 0.2 { boost := true, pitch := -0.5, roll := 1, yaw := -0.3 },
   ControlStep.mk 0.25 { boost := true, pitch := -0.7 },
   ControlStep.mk 0.4 { pitch := 1 }]

/-- `psycho` step template (`src/bot.py` lines 298-314). -/
def psycho_steps : List ControlStep :=
  [ControlStep.mk 0.1 { jump := true, boost := true, pitch := 0.3 },
   ControlStep.mk 0.05 { jump := false, boost := true },
   ControlStep.mk 0.1 { jump := true, boost := true, pitch := 0.8 },
   ControlStep.mk 0.2 { boost := true, pitch := 0.6, roll := 1, yaw := 0.5 },
   ControlStep.mk 0.2 { boost := true, pitch := 0.4, roll := 1, yaw := -0.5 },
   ControlStep.mk 0.2 { boost := true, pitch := 0.5, roll := 1, yaw := 0.5 },
   ControlStep.mk 0.2 { boost := true, pitch := 0.3, roll := 1, yaw := -0.5 },
   ControlStep.mk 0.15 { boost := true, pitch := -0.5, roll := 1 },
   ControlStep.mk 0.15 { boost := true, pitch := -0.8, roll := 0.5 },
   ControlStep.mk 0.5 { pitch := 1, roll := 0 }]

/-- `musty_flick` step template (`src/bot.py` lines 322-339). -/
def musty_flick_steps : List ControlStep :=
  [ControlStep.mk 0.1 { jump := true, boost := true },
   ControlStep.mk 0.05 { jump := false, boost := true },
   ControlStep.mk 0.1 { jump := true, boost := true, pitch := -0.3 },
   ControlStep.mk 0.15 { boost := true, pitch := 0.6 },
   ControlStep.mk 0.15 { boost := true, pitch := 0.8 },
   ControlStep.mk 0.15 { boost := true, pitch := 1 },
   ControlStep.mk 0.1 { jump := true, pitch := 1, boost := false },
   ControlStep.mk 0.2 { pitch := 1, boost := false },
   ControlStep.mk 0.5 { pitch := -1, roll := 0 },
   ControlStep.mk 0.3 { pitch := 1, roll := 0 }]

/-- `flip_reset` step template (`src/bot.py` lines 347-368). -/
def flip_reset_steps : List ControlStep :=
  [ControlStep.mk 0.1 { jump := true, boost := true },
   ControlStep.mk 0.05 { jump := false, boost := true },
   ControlStep.mk 0.1 { jump := true, boost := true, pitch := -0.4 },
   ControlStep.mk 0.2 { boost := true, pitch := -0.3 },
   ControlStep.mk 0.15 { boost := true, pitch := 0.6, roll := 0.3 },
   ControlStep.mk 0.15 { boost := true, pitch := 0.8, roll := -0.3 },
   ControlStep.mk 0.15 { boost := true, pitch := 0.9, roll := 0 },
   ControlStep.mk 0.1 { boost := true, pitch := -0.3 },
   ControlStep.mk 0.05 { jump := true, boost := true },
   ControlStep.mk 0.2 { jump := true, pitch := -1, yaw := 0.4, boost := true },
   ControlStep.mk 0.5 { pitch := 1 }]

/-- `diagonal_flip` step template (`src/bot.py` lines 413-418). -/
def diagonal_flip_steps : List ControlStep :=
  [ControlStep.mk 0.05 { jump := true },
   ControlStep.mk 0.05 { jump := false },
   ControlStep.mk 0.2 { jump := true, pitch := -1, yaw := 0.4 },
   ControlStep.mk 0.8 {}]

/-- `speed_flip` step template (`src/bot.py` lines 428-458). -/
def speed_flip_steps : List ControlStep :=
  [ControlStep.mk 0.05 { jump := true, boost := true, pitch := 0.2 },
   ControlStep.mk 0.05 { jump := false, boost := true },
   ControlStep.mk 0.12 { jump := true, pitch := -1, yaw := -0.25, boost := true },
   ControlStep.mk 0.18 { pitch := 1, yaw := -0.15, roll := -0.4, boost := true },
   ControlStep.mk 0.15 { pitch := 0.3, roll := -0.5, boost := true },
   ControlStep.mk 0.3 { boost := true, throttle := 1 }]

/-- Dispatch of the chosen trick name to its template (`src/bot.py` lines
152-169): each trick method installs its template as the active sequence and
returns that sequence's first tick; an unknown name falls through to the
basic freestyle aerial. -/
def run_trick (chosen : String) (game_time : ℚ) :
    Option SimpleControllerState × Sequence :=
  if chosen = "tornado" then start_sequence tornado_steps game_time
  else if chosen = "kuxir_twist" then start_sequence kuxir_twist_steps game_time
  else if chosen = "air_roll_shot" then start_sequence air_roll_shot_steps game_time
  else if chosen = "ceiling_shuffle" then start_sequence ceiling_shuffle_steps game_time
  else if chosen = "spinning_aerial" then start_sequence spinning_aerial_steps game_time
  else if chosen = "psycho" then start_sequence psycho_steps game_time
  else if chosen = "musty_flick" then start_sequence musty_flick_steps game_time
  else if chosen = "flip_reset" then start_sequence flip_reset_steps game_time
  else start_sequence basic_freestyle_aerial_steps game_time

/-- The per-tick state snapshot `get_output` consumes.  `distance_to_ball`
and `car_speed` are the vector norms computed by the external `Vec3`
collaborator (`util/vec.py`, not part of the sources), supplied as inputs. -/
structure Packet where
  ball_location : Vec3
  seconds_elapsed : ℚ
  boost : ℚ
  is_super_sonic : Bool
  has_wheel_contact : Bool
  distance_to_ball : ℚ
  car_speed : ℚ
  ball_prediction : List Slice
deriving DecidableEq

/-- The ground-game target point (`src/bot.py` lines 376-385): the ball's
current location, replaced by a predicted future location when the distance
exceeds 1200 and the prediction yields a slice at
`seconds_elapsed + min (distance / 1000) 2`. -/
def ground_target (p : Packet) (distance : ℚ) : Vec3 :=
  if distance > 1200 then
    match find_slice_at_time p.ball_prediction
        (p.seconds_elapsed + min (distance / 1000) 2) with
    | some ball_in_future => ball_in_future.location
    | none => p.ball_location
  else p.ball_location

/-- The outcome of the ground game: either a newly started sequence together
with its first tick's output, or a plain driving control output. -/
inductive GroundResult where
  | seq : Option SimpleControllerState × Sequence → GroundResult
  | drive : SimpleControllerState → GroundResult
deriving DecidableEq

/-- `speed_flip` (`src/bot.py` lines 421-460): install the speed-flip
template as the active sequence and tick it once. -/
def speed_flip (game_time : ℚ) : Option SimpleControllerState × Sequence :=
  start_sequence speed_flip_steps game_time

/-- `diagonal_flip` (`src/bot.py` lines 411-419). -/
def diagonal_flip (game_time : ℚ) : Option SimpleControllerState × Sequence :=
  start_sequence diagonal_flip_steps game_time

/-- `ground_game_logic` (`src/bot.py` lines 372-409): three sequence-starting
speed-band branches in priority order, then the direct-steering fallback with
full throttle and conditional boost.  The proportional steering heuristic
`steer_toward_target` lives in the external `util/drive.py` collaborator and
is passed in as a function of the target point. -/
def ground_game_logic (steer_toward_target : Vec3 → ℚ) (p : Packet)
    (distance speed : ℚ) : GroundResult :=
  let target_location := ground_target p distance
  if 0 < speed ∧ speed < 200 ∧ p.has_wheel_contact = true ∧ distance > 1500 then
    .seq (speed_flip p.seconds_elapsed)
  else if 900 < speed ∧ speed < 1100 ∧ p.has_wheel_contact = true ∧ distance > 800 then
    .seq (diagonal_flip p.seconds_elapsed)
  else if 1200 < speed ∧ speed < 1400 ∧ p.has_wheel_contact = true ∧ distance > 1000 then
    .seq (speed_flip p.seconds_elapsed)
  else
    .drive { steer := steer_toward_target target_location, throttle := 1,
             boost := decide (distance > 1500 ∧ p.boost > 20 ∧ speed < 2200) }

/-- C8: a grounded vehicle at speed 150 with distance 1800 to the ball takes
the first ground branch: the speed-flip (launch-acceleration) sequence is
started — pre-empting direct steering — and its first output (the initial
jump-plus-boost step) is returned. -/
theorem ground_game_logic_speed150_starts_speed_flip
    (steer_toward_target : Vec3 → ℚ) (p : Packet)
    (hw : p.has_wheel_contact = true) :
    ground_game_logic steer_toward_target p 1800 150 =
      .seq (speed_flip p.seconds_elapsed) ∧
    (speed_flip p.seconds_elapsed).1 =
      some { jump := true, boost := true, pitch := 0.2 } ∧
    (speed_flip p.seconds_elapsed).2.steps = speed_flip_steps := by
  refine ⟨?_, ?_, ?_⟩
  · unfold ground_game_logic
    rw [if_pos ⟨by norm_num, by norm_num, hw, by norm_num⟩]
  · simp only [speed_flip, start_sequence, Sequence.tick, speed_flip_steps,
      select_step, sub_self]
    norm_num
  · simp only [speed_flip, start_sequence, Sequence.tick, speed_flip_steps,
      select_step, sub_self]
    norm_num

/-- C8 witness: a concrete grounded snapshot with speed 150 and distance
1800. -/
theorem ground_game_logic_speed150_starts_speed_flip_witness :
    ground_game_logic (fun _ => 0)
        (Packet.mk (Vec3.mk 0 0 93) 10 50 false true 1800 150 []) 1800 150 =
      .seq (speed_flip 10) ∧
    (speed_flip (10 : ℚ)).1 = some { jump := true, boost := true, pitch := 0.2 } ∧
    (speed_flip (10 : ℚ)).2.steps = speed_flip_steps :=
  ground_game_logic_speed150_starts_speed_flip (fun _ => 0)
    (Packet.mk (Vec3.mk 0 0 93) 10 50 false true 1800 150 []) rfl

/-- C10: at speed exactly 0 the launch-acceleration branch does not fire
(it requires speed strictly greater than 0), and — the other speed bands
failing too — the grounded, far-from-ball vehicle gets the direct-steering
output: full throttle, steering toward the ground target, boost exactly when
boost exceeds 20. -/
theorem ground_game_logic_speed0_direct_steering
    (steer_toward_target : Vec3 → ℚ) (p : Packet) (distance : ℚ)
    (hw : p.has_wheel_contact = true) (hd : 1500 < distance) :
    ground_game_logic steer_toward_target p distance 0 =
      .drive { steer := steer_toward_target (ground_target p distance),
               throttle := 1, boost := decide (20 < p.boost) } := by
  unfold ground_game_logic
  rw [if_neg (by rintro ⟨h, -⟩; exact lt_irrefl 0 h),
    if_neg (by rintro ⟨h, -⟩; norm_num at h),
    if_neg (by rintro ⟨h, -⟩; norm_num at h)]
  have hb : (distance > 1500 ∧ p.boost > 20 ∧ (0:ℚ) < 2200) ↔ 20 < p.boost := by
    constructor
    · rintro ⟨-, h, -⟩; exact h
    · intro h; exact ⟨hd, h, by norm_num⟩
  simp only [decide_eq_decide.mpr hb]

/-- C10 witness: a concrete grounded snapshot with speed 0 and distance
1800. -/
theorem ground_game_logic_speed0_direct_steering_witness :
    ground_game_logic (fun _ => 0)
        (Packet.mk (Vec3.mk 0 0 93) 10 50 false true 1800 0 []) 1800 0 =
      .drive { steer := 0, throttle := 1, boost := decide ((20:ℚ) < 50) } :=
  ground_game_logic_speed0_direct_steering (fun _ => 0)
    (Packet.mk (Vec3.mk 0 0 93) 10 50 false true 1800 0 []) 1800 rfl (by decide)

/-- The decision state `AdvancedFreestyleBot` holds across ticks
(`src/bot.py` lines 25-36): the nullable active-sequence slot, the last
aerial start time, the fixed cooldown, the lifetime trick counter and the
identity of the last chosen trick. -/
structure BotState where
  active_sequence : Option Sequence
  last_aerial_time : ℚ
  aerial_cooldown : ℚ
  tricks_performed : ℕ
  last_trick_type : Option String
deriving DecidableEq

/-- `choose_freestyle_aerial` (`src/bot.py` lines 122-169): build the
candidate list from the boost tiers, drop the previous trick once, pick
uniformly at random, record the pick and the incremented trick counter, and
run the chosen trick's template (which installs the new active sequence and
returns its first tick). -/
def choose_freestyle_aerial (b : BotState) (p : Packet) (rand : ℕ) :
    Option SimpleControllerState × BotState :=
  let tricks := aerial_candidates p.boost b.last_trick_type
  let chosen := chosen_trick tricks rand
  let result := run_trick chosen p.seconds_elapsed
  (result.1,
    { b with
        last_trick_type := some chosen,
        tricks_performed := b.tricks_performed + 1,
        active_sequence := some result.2 })

/-- Fold a ground-game outcome back into the bot state: a started sequence
occupies the active-sequence slot; plain driving leaves the state as is. -/
def apply_ground_result (b : BotState) :
    GroundResult → Option SimpleControllerState × BotState
  | .seq result => (result.1, { b with active_sequence := some result.2 })
  | .drive controls => (some controls, b)

/-- The decision part of `get_output` (`src/bot.py` lines 60-92): aerial
eligibility, then target lookup — recording the aerial start time only when a
target is found — then trick selection; otherwise the ground game. -/
def run_decisions (steer_toward_target : Vec3 → ℚ) (b : BotState) (p : Packet)
    (rand : ℕ) : Option SimpleControllerState × BotState :=
  let time_since_aerial := p.seconds_elapsed - b.last_aerial_time
  let ball_height := p.ball_location.z
  if check_aerial_conditions ball_height p.distance_to_ball p.boost
      time_since_aerial b.aerial_cooldown p.is_super_sonic p.has_wheel_contact then
    match find_aerial_target p.ball_prediction p.seconds_elapsed p.distance_to_ball with
    | some _ =>
        choose_freestyle_aerial { b with last_aerial_time := p.seconds_elapsed } p rand
    | none =>
        apply_ground_result b
          (ground_game_logic steer_toward_target p p.distance_to_ball p.car_speed)
  else
    apply_ground_result b
      (ground_game_logic steer_toward_target p p.distance_to_ball p.car_speed)

/-- `get_output` (`src/bot.py` lines 41-92): while an active, unfinished
sequence yields a control output, return it and touch nothing else; when the
tick yields the absence signal (or no live sequence exists) fall through to
the decision logic. -/
def get_output (steer_toward_target : Vec3 → ℚ) (b : BotState) (p : Packet)
    (rand : ℕ) : Option SimpleControllerState × BotState :=
  match b.active_sequence with
  | some s =>
      if s.done then run_decisions steer_toward_target b p rand
      else
        match s.tick p.seconds_elapsed with
        | (some controls, s2) => (some controls, { b with active_sequence := some s2 })
        | (none, s2) =>
            run_decisions steer_toward_target { b with active_sequence := some s2 } p rand
  | none => run_decisions steer_toward_target b p rand

/-- A tick that yields a control output leaves the sequence's state — steps,
start reference and done flag — untouched. -/
theorem Sequence.tick_some_eq (s : Sequence) (game_time : ℚ)
    (controls : SimpleControllerState) (s2 : Sequence)
    (h : s.tick game_time = (some controls, s2)) : s2 = s := by
  unfold Sequence.tick at h
  by_cases hdone : s.done
  · simp [hdone] at h
  · simp only [hdone, if_false, Bool.false_eq_true] at h
    rcases hsel : select_step s.steps (game_time - s.start_time) with _ | c2
    · rw [hsel] at h
      simp at h
    · rw [hsel] at h
      exact (Prod.mk.injEq _ _ _ _ ▸ h).2.symm

/-- C5: when an active, unfinished sequence's tick yields a control output,
`get_output` returns that output unmodified and pre-empts all decision
logic: `last_aerial_time`, `tricks_performed`, `last_trick_type` and the
active-sequence slot are exactly as before (the slot still holds the same
sequence). -/
theorem get_output_preempts_decisions (steer_toward_target : Vec3 → ℚ)
    (b : BotState) (p : Packet) (rand : ℕ) (s s2 : Sequence)
    (controls : SimpleControllerState)
    (hactive : b.active_sequence = some s) (hnotdone : s.done = false)
    (htick : s.tick p.seconds_elapsed = (some controls, s2)) :
    get_output steer_toward_target b p rand =
      (some controls, { b with active_sequence := some s2 }) ∧
    s2 = s := by
  refine ⟨?_, Sequence.tick_some_eq s p.seconds_elapsed controls s2 htick⟩
  unfold get_output
  rw [hactive]
  simp only [hnotdone, Bool.false_eq_true, if_false]
  split
  · next controls2 s3 heq =>
      rw [htick] at heq
      rcases heq with ⟨⟩
      rfl
  · next s3 heq =>
      rw [htick] at heq
      simp at heq

/-- C5 witness: a bot holding an active one-step sequence (0.2 s of full
throttle, started at time 0) ticked at time 0.1 — the step's output is
returned and the decision state is untouched. -/
theorem get_output_preempts_decisions_witness :
    get_output (fun _ => 0)
        (BotState.mk
          (some (Sequence.mk [ControlStep.mk 0.2 { throttle := 1 }] 0 false))
          0 3 0 none)
        (Packet.mk (Vec3.mk 0 0 93) 0.1 50 false true 1000 500 []) 0 =
      (some { throttle := 1 },
        { BotState.mk
            (some (Sequence.mk [ControlStep.mk 0.2 { throttle := 1 }] 0 false))
            0 3 0 none with
          active_sequence :=
            some (Sequence.mk [ControlStep.mk 0.2 { throttle := 1 }] 0 false) }) ∧
    Sequence.mk [ControlStep.mk 0.2 { throttle := 1 }] 0 false =
      Sequence.mk [ControlStep.mk 0.2 { throttle := 1 }] 0 false :=
  get_output_preempts_decisions (fun _ => 0)
    (BotState.mk
      (some (Sequence.mk [ControlStep.mk 0.2 { throttle := 1 }] 0 false))
      0 3 0 none)
    (Packet.mk (Vec3.mk 0 0 93) 0.1 50 false true 1000 500 []) 0
    (Sequence.mk [ControlStep.mk 0.2 { throttle := 1 }] 0 false)
    (Sequence.mk [ControlStep.mk 0.2 { throttle := 1 }] 0 false)
    { throttle := 1 } rfl rfl (by decide)

end Freestyle
